import Mathlib

/-!
Shallow embedding of the webpushkit client library (src/main.ts, src/deviceId.ts,
src/types.ts, src/worker.js).  Browser platform state (localStorage, the push
manager, the Notification API, fetch) is passed explicitly as environment
records; JS promise rejection is modelled with Except String.
-/

namespace WebPushKit

/-- JS string-or-default: models `x || d` for an optional string, where both
`undefined` and the empty string are falsy. -/
def jsOrStr (x : Option String) (d : String) : String :=
  match x with
  | none => d
  | some s => if s = "" then d else s

/-- State of the localStorage slot for the key "push_device_id".  `throws`
models storage being unavailable (getItem/setItem/removeItem throw). -/
structure Storage where
  throws : Bool
  val : Option String
deriving DecidableEq

/-- Embedding of getOrCreateDeviceId (src/deviceId.ts): returns the stored id
when present and truthy, otherwise generates (the fresh UUID is the `gen`
argument, standing for the generateUUID() call) and persists it; if storage
throws, returns the fresh UUID without persisting.  The falsiness check
`if (!deviceId)` treats a stored empty string as absent. -/
def getOrCreateDeviceId (gen : String) (st : Storage) : String × Storage :=
  if st.throws then
    (gen, st)
  else
    match st.val with
    | some s => if s = "" then (gen, { st with val := some gen }) else (s, st)
    | none => (gen, { st with val := some gen })

/-- Embedding of `v.toString(16)` for a nibble v in 0..15: one lowercase hex
digit. -/
def hexChar (n : Fin 16) : Char :=
  if n.val < 10 then Char.ofNat (48 + n.val) else Char.ofNat (87 + n.val)

theorem varNibbleLt : ∀ n : Fin 16, ((n.val &&& 3) ||| 8) < 16 := by decide

/-- Embedding of `(r & 0x3) | 0x8`, the variant-nibble adjustment applied to
the random nibble at the template's y position. -/
def varNibble (n : Fin 16) : Fin 16 :=
  ⟨(n.val &&& 3) ||| 8, varNibbleLt n⟩

/-- The UUID v4 template string from generateUUID (src/deviceId.ts). -/
def uuidTemplate : String := "xxxxxxxx-xxxx-4xxx-yxxx-xxxxxxxxxxxx"

/-- Embedding of the template replace in generateUUID's fallback path:
`template.replace(/[xy]/g, cb)` where the callback draws one random nibble per
match (r is the stream of `(Math.random()*16)|0` results, one per callback
invocation). -/
def replaceUUID (r : Nat → Fin 16) : List Char → Nat → List Char
  | [], _ => []
  | c :: cs, i =>
    if c = 'x' then hexChar (r i) :: replaceUUID r cs (i + 1)
    else if c = 'y' then hexChar (varNibble (r i)) :: replaceUUID r cs (i + 1)
    else c :: replaceUUID r cs i

/-- The fallback (pseudo-random) path of generateUUID. -/
def fallbackUUID (r : Nat → Fin 16) : String :=
  ⟨replaceUUID r uuidTemplate.data 0⟩

/-- Platform crypto capability: whether crypto.randomUUID is available, and
the string it would return. -/
structure CryptoEnv where
  available : Bool
  randomUUID : String

/-- Embedding of generateUUID (src/deviceId.ts): crypto.randomUUID() when
available, otherwise the template-replace fallback. -/
def generateUUID (env : CryptoEnv) (r : Nat → Fin 16) : String :=
  if env.available then env.randomUUID else fallbackUUID r

/-- Lowercase hexadecimal digit test for the UUID shape predicate. -/
def isLowerHexDigit (c : Char) : Bool :=
  (decide ('0' ≤ c) && decide (c ≤ '9')) || (decide ('a' ≤ c) && decide (c ≤ 'f'))

/-- Zero-based hyphen positions of the canonical UUID text form
(one-based positions 9, 14, 19, 24). -/
def isHyphenPos (i : Nat) : Bool :=
  i == 8 || i == 13 || i == 18 || i == 23

/-- Checks each character of a UUID candidate: hyphens exactly at the hyphen
positions, lowercase hex digits everywhere else. -/
def checkChars : Nat → List Char → Bool
  | _, [] => true
  | i, c :: cs =>
    (if isHyphenPos i then c == '-' else isLowerHexDigit c) && checkChars (i + 1) cs

/-- The UUID-v4 textual shape: 36 characters, hyphens at one-based positions
9, 14, 19, 24, lowercase hex elsewhere, version nibble 4 (one-based
position 15), variant nibble in 8, 9, a, b (one-based position 20). -/
def isUUIDv4Shape (s : String) : Bool :=
  (s.data.length == 36) && checkChars 0 s.data
    && (s.data.getD 14 ' ' == '4')
    && (['8', '9', 'a', 'b'] : List Char).contains (s.data.getD 19 ' ')

theorem hexCharLowerHex : ∀ n : Fin 16, isLowerHexDigit (hexChar n) = true := by decide

theorem hexCharVarMem :
    ∀ n : Fin 16, (['8', '9', 'a', 'b'] : List Char).contains (hexChar (varNibble n)) = true := by
  decide

/-- The character list produced by the fallback path, made explicit. -/
def fallbackChars (r : Nat → Fin 16) : List Char :=
  [hexChar (r 0), hexChar (r 1), hexChar (r 2), hexChar (r 3),
   hexChar (r 4), hexChar (r 5), hexChar (r 6), hexChar (r 7), '-',
   hexChar (r 8), hexChar (r 9), hexChar (r 10), hexChar (r 11), '-',
   '4', hexChar (r 12), hexChar (r 13), hexChar (r 14), '-',
   hexChar (varNibble (r 15)), hexChar (r 16), hexChar (r 17), hexChar (r 18), '-',
   hexChar (r 19), hexChar (r 20), hexChar (r 21), hexChar (r 22),
   hexChar (r 23), hexChar (r 24), hexChar (r 25), hexChar (r 26),
   hexChar (r 27), hexChar (r 28), hexChar (r 29), hexChar (r 30)]

theorem fallbackUUID_data (r : Nat → Fin 16) : (fallbackUUID r).data = fallbackChars r := rfl

theorem fallbackUUIDShape (r : Nat → Fin 16) : isUUIDv4Shape (fallbackUUID r) = true := by
  have h1 : ((fallbackUUID r).data.length == 36) = true := by
    rw [fallbackUUID_data]
    rfl
  have h2 : checkChars 0 (fallbackUUID r).data = true := by
    rw [fallbackUUID_data]
    simp [fallbackChars, checkChars, isHyphenPos, hexCharLowerHex]
    decide
  have h3 : ((fallbackUUID r).data.getD 14 ' ' == '4') = true := by
    rw [fallbackUUID_data]
    rfl
  have h4 : (['8', '9', 'a', 'b'] : List Char).contains ((fallbackUUID r).data.getD 19 ' ') = true := by
    rw [fallbackUUID_data]
    exact hexCharVarMem (r 15)
  unfold isUUIDv4Shape
  rw [h1, h2, h3, h4]
  rfl

/-- Embedding of PushNotificationConfig (src/types.ts): all fields optional. -/
structure PushNotificationConfig where
  serviceWorkerPath : Option String := none
  apiKey : Option String := none
  environment : Option String := none
  baseURL : Option String := none

/-- A fetch Response, reduced to the fields the code reads. -/
structure HttpResponse where
  status : Nat
  statusText : String
deriving DecidableEq

/-- Embedding of Response.ok: status in the range 200 to 299. -/
def HttpResponse.ok (r : HttpResponse) : Bool :=
  decide (200 ≤ r.status) && decide (r.status ≤ 299)

/-- Embedding of NotificationAction (src/types.ts). -/
structure NotificationAction where
  action : String
  title : String
  icon : Option String := none
deriving DecidableEq

/-- Embedding of PushNotificationPayload (src/types.ts); the `data` field is
an arbitrary JSON value, modelled opaquely as a string. -/
structure PushNotificationPayload where
  title : String
  body : Option String := none
  icon : Option String := none
  badge : Option String := none
  image : Option String := none
  tag : Option String := none
  requireInteraction : Option Bool := none
  silent : Option Bool := none
  renotify : Option Bool := none
  timestamp : Option Int := none
  vibrate : Option (List Int) := none
  lang : Option String := none
  dir : Option String := none
  data : Option String := none
  actions : Option (List NotificationAction) := none
deriving DecidableEq

/-- Embedding of SubscribeResponse.data (src/types.ts). -/
structure SubscribeResponseData where
  endpoint : String
  device_id : String
deriving DecidableEq

/-- Embedding of SubscribeResponse (src/types.ts). -/
structure SubscribeResponse where
  status_code : Nat
  message : String
  data : SubscribeResponseData
deriving DecidableEq

/-- Embedding of UnsubscribeResponse.data (src/types.ts); the
removed_subscriptions entries are opaque. -/
structure UnsubscribeResponseData where
  device_ids : List String
  removed_count : Nat
  removed_subscriptions : List String
deriving DecidableEq

/-- Embedding of UnsubscribeResponse (src/types.ts). -/
structure UnsubscribeResponse where
  status_code : Nat
  message : String
  data : UnsubscribeResponseData
deriving DecidableEq

/-- The module-scope default server key hardcoded as a class-field initializer
in src/main.ts. -/
def defaultVapidPublicKey : String :=
  "BGJZlj6wOKENtIi6pd1jLR_WWBSaOHL6N3Mk0hDbd8P3WXPEi7UHH16bkMsddxAMR1TQmovggzU82rpSkzxBsIc"

/-- The module-scope default backend base URL hardcoded as a class-field
initializer in src/main.ts. -/
def defaultBaseURL : String := "https://the-monolith.onrender.com/pushservice"

/-- The fields of a PushNotificationManager instance (src/main.ts).  The key
and base URL are the hardcoded defaults; serviceWorkerPath and apiKey come
from the optional config; deviceId is captured once at construction. -/
structure Manager where
  vapidPublicKey : String
  baseURL : String
  serviceWorkerPath : String
  apiKey : Option String
  deviceId : String
deriving DecidableEq

/-- Embedding of the PushNotificationManager constructor: `config?` is
optional, `config?.serviceWorkerPath || "/sw.js"` applies the falsy default,
and the device id is read once via getOrCreateDeviceId (gen is the fresh UUID
that call would generate if storage holds none). -/
def mkManager (config : Option PushNotificationConfig) (gen : String) (st : Storage) :
    Manager × Storage :=
  let p := getOrCreateDeviceId gen st
  ({ vapidPublicKey := defaultVapidPublicKey
     baseURL := defaultBaseURL
     serviceWorkerPath := jsOrStr (config.bind (fun c => c.serviceWorkerPath)) "/sw.js"
     apiKey := config.bind (fun c => c.apiKey)
     deviceId := p.1 }, p.2)

/-- The subscribe endpoint class field of src/main.ts. -/
def Manager.subscribeEndpoint (m : Manager) : String := m.baseURL ++ "/api/subscribe"

/-- The notify endpoint class field of src/main.ts. -/
def Manager.notifyEndpoint (m : Manager) : String := m.baseURL ++ "/api/notify"

/-- The unsubscribe endpoint class field of src/main.ts. -/
def Manager.unsubscribeEndpoint (m : Manager) : String := m.baseURL ++ "/api/unsubscribe"

/-- Embedding of getHeaders (src/main.ts): JSON content type, plus the API key
header when the key is truthy. -/
def Manager.getHeaders (m : Manager) : List (String × String) :=
  [("Content-Type", "application/json")] ++
    (match m.apiKey with
     | some k => if k = "" then [] else [("X-API-Key", k)]
     | none => [])

/-- The keys object of PushSubscription.toJSON(): both entries may be absent
at runtime (the TS non-null assertions do not check anything). -/
structure PushSubscriptionKeysJSON where
  p256dh : Option String := none
  auth : Option String := none
deriving DecidableEq

/-- The result of PushSubscription.toJSON(). -/
structure PushSubscriptionJSON where
  endpoint : Option String := none
  keys : Option PushSubscriptionKeysJSON := none
  expirationTime : Option Int := none
deriving DecidableEq

/-- The keys part of the subscribe request body (src/types.ts
SubscriptionData); options record what the runtime actually has. -/
structure SubscriptionKeys where
  p256dh : Option String
  auth : Option String
deriving DecidableEq

/-- The metadata part of the subscribe request body. -/
structure SubscriptionMetadata where
  userAgent : String
  timestamp : String
deriving DecidableEq

/-- The subscription part of the subscribe request body. -/
structure SubscriptionRecord where
  endpoint : Option String
  keys : SubscriptionKeys
  expiration_time : Option String
  metadata : SubscriptionMetadata
deriving DecidableEq

/-- Embedding of SubscriptionData (src/types.ts), the subscribe POST body. -/
structure SubscriptionData where
  subscription : SubscriptionRecord
  device_id : String
deriving DecidableEq

/-- The JSON body of an outgoing fetch request. -/
inductive RequestBody where
  | subscribeBody (data : SubscriptionData)
  | unsubscribeBody (device_ids : List String)
  | notifyBody (device_ids : List String) (payload : PushNotificationPayload)
deriving DecidableEq

/-- An outgoing fetch request. -/
structure Request where
  url : String
  headers : List (String × String)
  body : RequestBody
deriving DecidableEq

/-- The device id carried by a subscribe request body, if this is one. -/
def RequestBody.sentDeviceId : RequestBody → Option String
  | .subscribeBody d => some d.device_id
  | _ => none

/-- Environment for one subscribe() call: the platform half (serviceWorker
ready plus pushManager.subscribe plus toJSON, which either rejects or yields a
subscription JSON), ambient metadata, and the network half. -/
structure SubscribeEnv where
  platform : Except String PushSubscriptionJSON
  userAgent : String
  nowISO : String
  isoOfTime : Int → String
  fetchResult : Except String HttpResponse
  parsed : SubscribeResponse

/-- Result of one subscribe() call: the settled promise and the fetch requests
that were issued. -/
structure SubscribeOutcome where
  result : Except String SubscribeResponse
  requests : List Request

/-- Embedding of subscribe (src/main.ts).  Rejection of any awaited step
propagates (the catch block rethrows).  Only the absence of the whole keys
object is checked; individual missing keys pass through untouched because the
TS non-null assertions have no runtime effect.  `expirationTime ? ... : null`
treats 0 as falsy. -/
def Manager.subscribe (m : Manager) (env : SubscribeEnv) : SubscribeOutcome :=
  match env.platform with
  | .error e => { result := .error e, requests := [] }
  | .ok json =>
    match json.keys with
    | none => { result := .error "Subscription keys are missing", requests := [] }
    | some ks =>
      let data : SubscriptionData :=
        { subscription :=
            { endpoint := json.endpoint
              keys := { p256dh := ks.p256dh, auth := ks.auth }
              expiration_time :=
                match json.expirationTime with
                | none => none
                | some t => if t = 0 then none else some (env.isoOfTime t)
              metadata := { userAgent := env.userAgent, timestamp := env.nowISO } }
          device_id := m.deviceId }
      let req : Request :=
        { url := m.subscribeEndpoint, headers := m.getHeaders, body := .subscribeBody data }
      match env.fetchResult with
      | .error e => { result := .error e, requests := [req] }
      | .ok resp =>
        if resp.ok then { result := .ok env.parsed, requests := [req] }
        else { result := .error ("Subscription failed: " ++ resp.statusText), requests := [req] }

/-- Environment for one unsubscribe() call: the network half, the decoded
response, and whether the browser currently holds a push subscription. -/
structure UnsubscribeEnv where
  fetchResult : Except String HttpResponse
  parsed : UnsubscribeResponse
  hasSubscription : Bool

/-- Result of one unsubscribe() call. -/
structure UnsubscribeOutcome where
  result : Except String UnsubscribeResponse
  requests : List Request
  targets : List String
  storage : Storage
  browserUnsubscribed : Bool

/-- Embedding of unsubscribe (src/main.ts): resolve the target list
(`deviceIds || [this.deviceId]`; an explicit empty list is truthy in JS and
stays empty), POST it, fail on network error or non-ok status before any
local teardown, otherwise tear down the browser subscription (if present) and
remove the stored device id exactly when `!deviceIds ||
deviceIds.includes(this.deviceId)`.  removeItem on unavailable storage throws
inside the try block. -/
def Manager.unsubscribe (m : Manager) (deviceIds : Option (List String))
    (env : UnsubscribeEnv) (st : Storage) : UnsubscribeOutcome :=
  let ids := deviceIds.getD [m.deviceId]
  let req : Request :=
    { url := m.unsubscribeEndpoint, headers := m.getHeaders, body := .unsubscribeBody ids }
  match env.fetchResult with
  | .error e =>
    { result := .error e, requests := [req], targets := ids, storage := st,
      browserUnsubscribed := false }
  | .ok resp =>
    if resp.ok then
      if deviceIds.isNone || (deviceIds.getD []).contains m.deviceId then
        if st.throws then
          { result := .error "localStorage unavailable", requests := [req], targets := ids,
            storage := st, browserUnsubscribed := env.hasSubscription }
        else
          { result := .ok env.parsed, requests := [req], targets := ids,
            storage := { st with val := none }, browserUnsubscribed := env.hasSubscription }
      else
        { result := .ok env.parsed, requests := [req], targets := ids, storage := st,
          browserUnsubscribed := env.hasSubscription }
    else
      { result := .error ("Unsubscribe failed: " ++ resp.statusText), requests := [req],
        targets := ids, storage := st, browserUnsubscribed := false }

/-- Environment for one notify() call. -/
structure NotifyEnv where
  fetchResult : Except String HttpResponse

/-- Result of one notify() call.  notify never rejects: the model's result is
a plain value, mirroring the catch block that converts every thrown error into
a structured failure result. -/
structure NotifyOutcome where
  success : Bool
  error : Option String
  requests : List Request

/-- Embedding of notify (src/main.ts): empty id list throws before fetch, the
catch converts it to a failure result; network errors and non-ok statuses
likewise become failure results; any ok status yields success true. -/
def Manager.notify (m : Manager) (deviceIds : List String)
    (payload : PushNotificationPayload) (env : NotifyEnv) : NotifyOutcome :=
  if deviceIds.isEmpty then
    { success := false, error := some "No device IDs provided", requests := [] }
  else
    let req : Request :=
      { url := m.notifyEndpoint, headers := m.getHeaders,
        body := .notifyBody deviceIds payload }
    match env.fetchResult with
    | .error e => { success := false, error := some e, requests := [req] }
    | .ok resp =>
      if resp.ok then { success := true, error := none, requests := [req] }
      else
        { success := false, error := some ("Notification failed: " ++ resp.statusText),
          requests := [req] }

/-- Notification.permission values ("granted", "denied", "default"); the
"default" state is named defaultState because default is a Lean keyword. -/
inductive PermissionState where
  | granted
  | denied
  | defaultState
deriving DecidableEq

/-- Environment for one initialize() call: the capability check
(serviceWorker in navigator and PushManager in window), the service-worker
registration outcome, whether the Notification API exists, the current
permission state, and the permission the user would choose if prompted. -/
structure InitEnv where
  supported : Bool
  swRegister : Except String Unit
  notificationInWindow : Bool
  permission : PermissionState
  promptResult : PermissionState

/-- Result of requestPermission: the boolean it resolves to and whether the
user was prompted (Notification.requestPermission() was called). -/
structure PermissionOutcome where
  value : Bool
  prompted : Bool
deriving DecidableEq

/-- Embedding of requestPermission (src/main.ts): no Notification API yields
false; granted yields true and denied false, both without prompting;
otherwise prompt and compare the outcome to granted. -/
def requestPermission (env : InitEnv) : PermissionOutcome :=
  if !env.notificationInWindow then { value := false, prompted := false }
  else
    match env.permission with
    | .granted => { value := true, prompted := false }
    | .denied => { value := false, prompted := false }
    | .defaultState =>
      { value := decide (env.promptResult = .granted), prompted := true }

/-- Result of initialize: the settled promise (registration failure rejects)
and whether the user was prompted. -/
structure InitOutcome where
  result : Except String Bool
  prompted : Bool

/-- Embedding of initialize (src/main.ts): unsupported platforms return false
without throwing; otherwise register the service worker (rejection
propagates) and return the requestPermission outcome. -/
def initializeManager (env : InitEnv) : InitOutcome :=
  if !env.supported then { result := .ok false, prompted := false }
  else
    match env.swRegister with
    | .error e => { result := .error e, prompted := false }
    | .ok _ =>
      let p := requestPermission env
      { result := .ok p.value, prompted := p.prompted }

/-- The data attached to a notification in the service worker, an arbitrary
JSON value: the push handler defaults it to an empty object. -/
inductive JsData where
  | emptyObject
  | value (n : Nat)
deriving DecidableEq

/-- The parsed JSON body of a push message as read by the worker's push
handler (src/worker.js); every field may be absent. -/
structure PushMessageData where
  title : Option String := none
  body : Option String := none
  icon : Option String := none
  badge : Option String := none
  image : Option String := none
  tag : Option String := none
  requireInteraction : Option Bool := none
  silent : Option Bool := none
  renotify : Option Bool := none
  timestamp : Option Int := none
  vibrate : Option (List Int) := none
  lang : Option String := none
  dir : Option String := none
  data : Option JsData := none
  actions : Option (List NotificationAction) := none
deriving DecidableEq

/-- The notification descriptor the worker's push handler builds and passes
to showNotification. -/
structure WorkerNotificationOptions where
  title : String
  body : String
  icon : String
  badge : String
  image : Option String
  tag : Option String
  requireInteraction : Bool
  silent : Bool
  renotify : Bool
  timestamp : Int
  vibrate : Option (List Int)
  lang : String
  dir : String
  data : JsData
  actions : List NotificationAction
deriving DecidableEq

/-- JS boolean-or-false: `x || false` for an optional boolean. -/
def jsOrBool (x : Option Bool) : Bool := x.getD false

/-- JS number-or-default for the timestamp: `x || now`, where 0 is falsy. -/
def jsOrTimestamp (x : Option Int) (now : Int) : Int :=
  match x with
  | none => now
  | some t => if t = 0 then now else t

/-- Embedding of the push event listener (src/worker.js): parse the message
body (empty object when the event carries no data), then build the descriptor
with `||` defaults; now is Date.now() at delivery. -/
def handlePush (eventData : Option PushMessageData) (now : Int) : WorkerNotificationOptions :=
  let d := eventData.getD {}
  { title := jsOrStr d.title "Notification"
    body := jsOrStr d.body ""
    icon := jsOrStr d.icon "/icon-192x192.png"
    badge := jsOrStr d.badge "/badge-72x72.png"
    image := d.image
    tag := d.tag
    requireInteraction := jsOrBool d.requireInteraction
    silent := jsOrBool d.silent
    renotify := jsOrBool d.renotify
    timestamp := jsOrTimestamp d.timestamp now
    vibrate := d.vibrate
    lang := jsOrStr d.lang "en"
    dir := jsOrStr d.dir "auto"
    data := d.data.getD .emptyObject
    actions := d.actions.getD [] }

/-! Helper lemmas shared by the claim theorems. -/

theorem getOrCreateDeviceId_throws (g : String) (st : Storage) :
    (getOrCreateDeviceId g st).2.throws = st.throws := by
  unfold getOrCreateDeviceId
  split
  · rfl
  · cases hv : st.val with
    | none => rfl
    | some s =>
      by_cases hs : s = "" <;> simp [hs]

/-! Concrete fixtures used by witnesses and counterexamples. -/

/-- A concrete manager instance for witness statements. -/
def sampleManager : Manager :=
  { vapidPublicKey := defaultVapidPublicKey
    baseURL := defaultBaseURL
    serviceWorkerPath := "/sw.js"
    apiKey := none
    deviceId := "dev-1" }

/-- A concrete decoded unsubscribe response. -/
def sampleUnsubResponse : UnsubscribeResponse :=
  { status_code := 200, message := "ok"
    data := { device_ids := ["dev-1"], removed_count := 1, removed_subscriptions := [] } }

/-- An unsubscribe environment whose backend call succeeds with status 200. -/
def sampleUnsubEnv : UnsubscribeEnv :=
  { fetchResult := .ok ⟨200, "OK"⟩, parsed := sampleUnsubResponse, hasSubscription := true }

/-- A concrete decoded subscribe response. -/
def sampleSubResponse : SubscribeResponse :=
  { status_code := 201, message := "created"
    data := { endpoint := "https://push.example/ep", device_id := "dev-1" } }

/-- A concrete notification payload. -/
def samplePayload : PushNotificationPayload := { title := "Hello" }

/-! Claim theorems. -/

/-- C6: within one storage lifetime getOrCreateDeviceId is an idempotent
read-through (the first call generates and persists the identifier, later
calls return the persisted value unchanged), and when storage throws it
returns the freshly generated identifier without persisting anything and
without propagating a failure. -/
theorem getOrCreateDeviceIdIdempotent (st : Storage) (gen1 gen2 : String)
    (hth : st.throws = false) (hg : gen1 ≠ "") :
    ((getOrCreateDeviceId gen2 (getOrCreateDeviceId gen1 st).2).1
        = (getOrCreateDeviceId gen1 st).1) ∧
    ((getOrCreateDeviceId gen2 (getOrCreateDeviceId gen1 st).2).2
        = (getOrCreateDeviceId gen1 st).2) ∧
    (st.val = none → getOrCreateDeviceId gen1 st = (gen1, { st with val := some gen1 })) ∧
    (∀ s, st.val = some s → s ≠ "" → getOrCreateDeviceId gen1 st = (s, st)) ∧
    (∀ st' : Storage, ∀ g : String, st'.throws = true → getOrCreateDeviceId g st' = (g, st')) := by
  refine ⟨?_, ?_, ?_, ?_, ?_⟩
  · cases hv : st.val with
    | none => simp [getOrCreateDeviceId, hth, hv, hg]
    | some s =>
      by_cases hs : s = ""
      · simp [getOrCreateDeviceId, hth, hv, hs, hg]
      · simp [getOrCreateDeviceId, hth, hv, hs]
  · cases hv : st.val with
    | none => simp [getOrCreateDeviceId, hth, hv, hg]
    | some s =>
      by_cases hs : s = ""
      · simp [getOrCreateDeviceId, hth, hv, hs, hg]
      · simp [getOrCreateDeviceId, hth, hv, hs]
  · intro hv
    simp [getOrCreateDeviceId, hth, hv]
  · intro s hv hs
    simp [getOrCreateDeviceId, hth, hv, hs]
  · intro st' g hth'
    simp [getOrCreateDeviceId, hth']

/-- C6 witness: concrete run on initially empty, available storage. -/
theorem getOrCreateDeviceIdIdempotentWitness :
    (getOrCreateDeviceId "uuid-b" (getOrCreateDeviceId "uuid-a" ⟨false, none⟩).2).1
      = (getOrCreateDeviceId "uuid-a" ⟨false, none⟩).1 :=
  (getOrCreateDeviceIdIdempotent ⟨false, none⟩ "uuid-a" "uuid-b" rfl (by decide)).1

/-- C7: every string generateUUID returns matches the UUID-v4 textual shape,
on the fallback path unconditionally from the embedded template replacement,
and on the crypto path under the platform contract that crypto.randomUUID
returns a v4-shaped string. -/
theorem generateUUIDShape (env : CryptoEnv) (r : Nat → Fin 16)
    (hc : env.available = true → isUUIDv4Shape env.randomUUID = true) :
    isUUIDv4Shape (generateUUID env r) = true := by
  cases h : env.available with
  | true =>
    simpa [generateUUID, h] using hc h
  | false =>
    simpa [generateUUID, h] using fallbackUUIDShape r

/-- C7 witness: the fallback path at the all-zero random stream. -/
theorem generateUUIDShapeWitness :
    isUUIDv4Shape (generateUUID ⟨false, ""⟩ (fun _ => 0)) = true :=
  generateUUIDShape ⟨false, ""⟩ (fun _ => 0) (fun h => Bool.noConfusion h)

/-- C1: unsubscribe with no argument resolves its target list to exactly the
caller's own device identifier; and after a successful backend response the
stored device identifier is removed exactly when the local device identifier
appears in the resolved target list.  Hypotheses: storage is available and
currently holds a persisted identifier, and the backend call succeeds. -/
theorem unsubscribeTargetsAndClear (m : Manager) (dids : Option (List String))
    (env : UnsubscribeEnv) (st : Storage) (resp : HttpResponse)
    (hth : st.throws = false) (hv : st.val.isSome = true)
    (hf : env.fetchResult = .ok resp) (hok : resp.ok = true) :
    ((m.unsubscribe none env st).targets = [m.deviceId]) ∧
    (((m.unsubscribe dids env st).storage.val = none)
        ↔ m.deviceId ∈ (m.unsubscribe dids env st).targets) := by
  constructor
  · simp [Manager.unsubscribe, hf, hok, hth]
  · cases dids with
    | none =>
      simp [Manager.unsubscribe, hf, hok, hth]
    | some l =>
      by_cases hc : m.deviceId ∈ l
      · simp [Manager.unsubscribe, hf, hok, hth, hc]
      · have hv' : st.val ≠ none := by
          intro h
          rw [h] at hv
          exact Bool.noConfusion hv
        simp [Manager.unsubscribe, hf, hok, hth, hc, hv']

/-- C1 witness: concrete unsubscribe calls against a stored identifier. -/
theorem unsubscribeTargetsAndClearWitness :
    ((sampleManager.unsubscribe none sampleUnsubEnv ⟨false, some "dev-1"⟩).targets
        = ["dev-1"]) ∧
    (((sampleManager.unsubscribe (some ["other"]) sampleUnsubEnv
          ⟨false, some "dev-1"⟩).storage.val = none)
      ↔ "dev-1" ∈ (sampleManager.unsubscribe (some ["other"]) sampleUnsubEnv
          ⟨false, some "dev-1"⟩).targets) :=
  unsubscribeTargetsAndClear sampleManager (some ["other"]) sampleUnsubEnv
    ⟨false, some "dev-1"⟩ ⟨200, "OK"⟩ rfl rfl rfl rfl

/-- C2: when the unsubscribe fetch rejects or the backend answers a non-ok
status, the failure propagates as the call's result and no local teardown
happens: the browser subscription is not unsubscribed and the stored device
identifier is untouched. -/
theorem unsubscribeFailureNoTeardown (m : Manager) (dids : Option (List String))
    (env : UnsubscribeEnv) (st : Storage) :
    (∀ e, env.fetchResult = .error e →
      (m.unsubscribe dids env st).result = .error e ∧
      (m.unsubscribe dids env st).storage = st ∧
      (m.unsubscribe dids env st).browserUnsubscribed = false) ∧
    (∀ resp, env.fetchResult = .ok resp → resp.ok = false →
      (m.unsubscribe dids env st).result
          = .error ("Unsubscribe failed: " ++ resp.statusText) ∧
      (m.unsubscribe dids env st).storage = st ∧
      (m.unsubscribe dids env st).browserUnsubscribed = false) := by
  constructor
  · intro e he
    simp [Manager.unsubscribe, he]
  · intro resp hr hok
    simp [Manager.unsubscribe, hr, hok]

/-- C2 witness: a concrete network failure leaves local state untouched. -/
theorem unsubscribeFailureNoTeardownWitness :
    (sampleManager.unsubscribe none
        ⟨.error "network down", sampleUnsubResponse, true⟩ ⟨false, some "dev-1"⟩).result
      = .error "network down" ∧
    (sampleManager.unsubscribe none
        ⟨.error "network down", sampleUnsubResponse, true⟩ ⟨false, some "dev-1"⟩).storage
      = ⟨false, some "dev-1"⟩ ∧
    (sampleManager.unsubscribe none
        ⟨.error "network down", sampleUnsubResponse, true⟩
        ⟨false, some "dev-1"⟩).browserUnsubscribed = false :=
  (unsubscribeFailureNoTeardown sampleManager none
    ⟨.error "network down", sampleUnsubResponse, true⟩ ⟨false, some "dev-1"⟩).1
    "network down" rfl

/-- A subscribe environment whose platform subscription has a keys object
with p256dh present but auth absent, and whose backend would answer 201. -/
def keysMissingAuthEnv : SubscribeEnv :=
  { platform := .ok
      { endpoint := some "https://push.example/ep"
        keys := some { p256dh := some "p256-material", auth := none }
        expirationTime := none }
    userAgent := "UA"
    nowISO := "2026-01-01T00:00:00.000Z"
    isoOfTime := fun _ => "1970-01-01T00:00:00.000Z"
    fetchResult := .ok ⟨201, "Created"⟩
    parsed := sampleSubResponse }

/-- A subscribe environment whose platform subscription has no keys object at
all. -/
def keysAbsentEnv : SubscribeEnv :=
  { platform := .ok
      { endpoint := some "https://push.example/ep"
        keys := none
        expirationTime := none }
    userAgent := "UA"
    nowISO := "2026-01-01T00:00:00.000Z"
    isoOfTime := fun _ => "1970-01-01T00:00:00.000Z"
    fetchResult := .ok ⟨201, "Created"⟩
    parsed := sampleSubResponse }

/-- A subscribe environment whose platform subscription has both keys. -/
def keysPresentEnv : SubscribeEnv :=
  { platform := .ok
      { endpoint := some "https://push.example/ep"
        keys := some { p256dh := some "p256-material", auth := some "auth-material" }
        expirationTime := none }
    userAgent := "UA"
    nowISO := "2026-01-01T00:00:00.000Z"
    isoOfTime := fun _ => "1970-01-01T00:00:00.000Z"
    fetchResult := .ok ⟨201, "Created"⟩
    parsed := sampleSubResponse }

/-- C3 counterexample: on a subscription whose keys object is present but
misses only the auth entry, subscribe does not fail with the keys-missing
error — it makes the backend request and resolves with the decoded
response.  The TS non-null assertion on auth has no runtime effect. -/
theorem subscribeMissingAuthCounterexample :
    (sampleManager.subscribe keysMissingAuthEnv).requests.length = 1 ∧
    (sampleManager.subscribe keysMissingAuthEnv).result = .ok sampleSubResponse := by
  constructor
  · rfl
  · rfl

/-- C3 amended: subscribe fails with the descriptive keys-missing error and
makes no network request exactly when the platform subscription's whole keys
object is absent; when the keys object is present — even with individual
entries such as auth missing — subscribe proceeds and POSTs to the backend. -/
theorem subscribeKeysObjectCheck (m : Manager) (env : SubscribeEnv)
    (json : PushSubscriptionJSON) (hplat : env.platform = .ok json) :
    (json.keys = none →
      (m.subscribe env).result = .error "Subscription keys are missing" ∧
      (m.subscribe env).requests = []) ∧
    (∀ ks, json.keys = some ks → (m.subscribe env).requests.length = 1) := by
  constructor
  · intro hk
    simp [Manager.subscribe, hplat, hk]
  · intro ks hk
    simp only [Manager.subscribe, hplat, hk]
    cases env.fetchResult with
    | error e => simp
    | ok resp =>
      by_cases hr : resp.ok <;> simp [hr]

/-- C3 amended witness: concrete run with the keys object absent. -/
theorem subscribeKeysObjectCheckWitness :
    (sampleManager.subscribe keysAbsentEnv).result
        = .error "Subscription keys are missing" ∧
    (sampleManager.subscribe keysAbsentEnv).requests = [] :=
  (subscribeKeysObjectCheck sampleManager keysAbsentEnv
      { endpoint := some "https://push.example/ep", keys := none, expirationTime := none }
      rfl).1 rfl

/-- C4: notify never rejects — its result is a plain value.  An empty
identifier list yields a failure result carrying the precondition message
without any network call; a network error yields a failure result carrying
the error message; a response with any non-ok status yields a failure result
carrying the status text; and any HTTP-success status (200 to 299, hence
also 207) yields success true. -/
theorem notifyNeverThrows (m : Manager) (ids : List String)
    (p : PushNotificationPayload) (env : NotifyEnv) :
    (ids = [] →
      (m.notify ids p env).success = false ∧
      (m.notify ids p env).error = some "No device IDs provided" ∧
      (m.notify ids p env).requests = []) ∧
    (∀ e, ids ≠ [] → env.fetchResult = .error e →
      (m.notify ids p env).success = false ∧
      (m.notify ids p env).error = some e) ∧
    (∀ resp, ids ≠ [] → env.fetchResult = .ok resp →
      ((m.notify ids p env).success = true ↔ resp.ok = true) ∧
      (resp.ok = false →
        (m.notify ids p env).error
            = some ("Notification failed: " ++ resp.statusText))) := by
  refine ⟨?_, ?_, ?_⟩
  · intro hids
    simp [Manager.notify, hids]
  · intro e hids he
    simp [Manager.notify, hids, he]
  · intro resp hids hr
    by_cases hok : resp.ok <;> simp [Manager.notify, hids, hr, hok]

/-- C4 witness: empty list fails without a request; a 207 multi-status
response counts as HTTP success. -/
theorem notifyNeverThrowsWitness :
    (sampleManager.notify [] samplePayload ⟨.ok ⟨207, "Multi-Status"⟩⟩).success = false ∧
    (sampleManager.notify [] samplePayload ⟨.ok ⟨207, "Multi-Status"⟩⟩).requests = [] ∧
    (sampleManager.notify ["dev-1", "dev-2"] samplePayload
        ⟨.ok ⟨207, "Multi-Status"⟩⟩).success = true :=
  ⟨((notifyNeverThrows sampleManager [] samplePayload ⟨.ok ⟨207, "Multi-Status"⟩⟩).1 rfl).1,
   ((notifyNeverThrows sampleManager [] samplePayload ⟨.ok ⟨207, "Multi-Status"⟩⟩).1 rfl).2.2,
   (((notifyNeverThrows sampleManager ["dev-1", "dev-2"] samplePayload
        ⟨.ok ⟨207, "Multi-Status"⟩⟩).2.2 ⟨207, "Multi-Status"⟩
        (List.cons_ne_nil "dev-1" ["dev-2"]) rfl).1).mpr rfl⟩

/-- The manager built with no configuration at all. -/
def noConfigManager : Manager := (mkManager none "fresh-uuid" ⟨false, none⟩).1

/-- C5 counterexample: constructing a manager with no configuration is not an
error — it succeeds with the module-scope hardcoded key and base URL — and a
network operation on it proceeds against those defaults. -/
theorem configDefaultsCounterexample :
    noConfigManager.vapidPublicKey
        = "BGJZlj6wOKENtIi6pd1jLR_WWBSaOHL6N3Mk0hDbd8P3WXPEi7UHH16bkMsddxAMR1TQmovggzU82rpSkzxBsIc" ∧
    noConfigManager.baseURL = "https://the-monolith.onrender.com/pushservice" ∧
    (noConfigManager.subscribe keysPresentEnv).requests.map (fun r => r.url)
        = ["https://the-monolith.onrender.com/pushservice/api/subscribe"] := by
  refine ⟨rfl, rfl, rfl⟩

/-- C5 amended: the configuration is optional and carries no key or URL; the
server public key and backend base URL are hardcoded module-scope defaults
shared by every instance, construction without configuration succeeds, and
all three endpoints derive from the built-in default base URL. -/
theorem configOptionalWithDefaults (cfg : Option PushNotificationConfig)
    (gen : String) (st : Storage) :
    (mkManager cfg gen st).1.vapidPublicKey = defaultVapidPublicKey ∧
    (mkManager cfg gen st).1.baseURL = defaultBaseURL ∧
    (mkManager cfg gen st).1.subscribeEndpoint = defaultBaseURL ++ "/api/subscribe" ∧
    (mkManager cfg gen st).1.notifyEndpoint = defaultBaseURL ++ "/api/notify" ∧
    (mkManager cfg gen st).1.unsubscribeEndpoint = defaultBaseURL ++ "/api/unsubscribe" :=
  ⟨rfl, rfl, rfl, rfl, rfl⟩

/-- C8: initialize returns false without throwing when the capability check
fails; otherwise (with the service worker registered and the Notification API
present, which the permission state presupposes) the permission request
short-circuits: already granted returns true immediately, already denied
returns false immediately without prompting, and otherwise the user is
prompted and initialize returns true exactly when the resulting permission is
granted. -/
theorem initializeShortCircuit (env : InitEnv) :
    (env.supported = false →
      initializeManager env = ⟨.ok false, false⟩) ∧
    (env.supported = true → env.swRegister = .ok () → env.notificationInWindow = true →
      (env.permission = .granted → initializeManager env = ⟨.ok true, false⟩) ∧
      (env.permission = .denied → initializeManager env = ⟨.ok false, false⟩) ∧
      (env.permission = .defaultState →
        (initializeManager env).prompted = true ∧
        (initializeManager env).result = .ok (decide (env.promptResult = .granted)))) := by
  constructor
  · intro hs
    simp [initializeManager, hs]
  · intro hs hsw hn
    refine ⟨?_, ?_, ?_⟩ <;> intro hp <;>
      simp [initializeManager, requestPermission, hs, hsw, hn, hp]

/-- C8 witness: undecided permission on a capable platform, user grants. -/
theorem initializeShortCircuitWitness :
    (initializeManager ⟨true, .ok (), true, .defaultState, .granted⟩).prompted = true ∧
    (initializeManager ⟨true, .ok (), true, .defaultState, .granted⟩).result = .ok true :=
  ((initializeShortCircuit ⟨true, .ok (), true, .defaultState, .granted⟩).2
      rfl rfl rfl).2.2 rfl

/-- C9: the worker's push handler applies exactly the documented defaults to
absent fields of the parsed message body, and a message without a body is
read as the empty object: title defaults to the generic placeholder, body,
icon and badge to the fixed fallback values, requireInteraction, silent and
renotify to false, timestamp to the delivery time, lang to the fixed locale,
dir to automatic, and data and actions to empty. -/
theorem pushHandlerDefaults (d : PushMessageData) (now : Int) :
    (handlePush none now = handlePush (some {}) now) ∧
    (d.title = none → (handlePush (some d) now).title = "Notification") ∧
    (d.body = none → (handlePush (some d) now).body = "") ∧
    (d.icon = none → (handlePush (some d) now).icon = "/icon-192x192.png") ∧
    (d.badge = none → (handlePush (some d) now).badge = "/badge-72x72.png") ∧
    (d.requireInteraction = none → (handlePush (some d) now).requireInteraction = false) ∧
    (d.silent = none → (handlePush (some d) now).silent = false) ∧
    (d.renotify = none → (handlePush (some d) now).renotify = false) ∧
    (d.timestamp = none → (handlePush (some d) now).timestamp = now) ∧
    (d.lang = none → (handlePush (some d) now).lang = "en") ∧
    (d.dir = none → (handlePush (some d) now).dir = "auto") ∧
    (d.data = none → (handlePush (some d) now).data = JsData.emptyObject) ∧
    (d.actions = none → (handlePush (some d) now).actions = []) := by
  refine ⟨rfl, ?_, ?_, ?_, ?_, ?_, ?_, ?_, ?_, ?_, ?_, ?_, ?_⟩
  all_goals intro h
  all_goals simp [handlePush, jsOrStr, jsOrBool, jsOrTimestamp, h]

/-- C9 witness: the empty message body yields the placeholder title and the
delivery timestamp. -/
theorem pushHandlerDefaultsWitness :
    (handlePush (some {}) 12345).title = "Notification" ∧
    (handlePush (some {}) 12345).timestamp = 12345 :=
  ⟨(pushHandlerDefaults {} 12345).2.1 rfl,
   (pushHandlerDefaults {} 12345).2.2.2.2.2.2.2.2.1 rfl⟩

/-- C10: the device identifier a manager sends on subscribe is the one
captured at construction: after an unsubscribe that clears the stored
identifier, a subscribe on the same instance still sends the original
identifier, while a fresh getOrCreateDeviceId call on the cleared storage
generates and persists a new identifier — so the in-memory and persisted
identifiers diverge within one instance's lifetime. -/
theorem deviceIdCapturedAtConstruction
    (cfg : Option PushNotificationConfig) (gen1 gen2 : String) (st0 : Storage)
    (uenv : UnsubscribeEnv) (senv : SubscribeEnv)
    (json : PushSubscriptionJSON) (ks : PushSubscriptionKeysJSON) (resp : HttpResponse)
    (hth : st0.throws = false)
    (hf : uenv.fetchResult = .ok resp) (hok : resp.ok = true)
    (hplat : senv.platform = .ok json) (hkeys : json.keys = some ks)
    (hne : gen2 ≠ (mkManager cfg gen1 st0).1.deviceId) :
    ((mkManager cfg gen1 st0).1.unsubscribe none uenv
        (mkManager cfg gen1 st0).2).storage.val = none ∧
    ((mkManager cfg gen1 st0).1.subscribe senv).requests.map
        (fun r => r.body.sentDeviceId)
      = [some (mkManager cfg gen1 st0).1.deviceId] ∧
    (getOrCreateDeviceId gen2 ((mkManager cfg gen1 st0).1.unsubscribe none uenv
        (mkManager cfg gen1 st0).2).storage).1 = gen2 ∧
    (getOrCreateDeviceId gen2 ((mkManager cfg gen1 st0).1.unsubscribe none uenv
        (mkManager cfg gen1 st0).2).storage).2.val = some gen2 ∧
    gen2 ≠ (mkManager cfg gen1 st0).1.deviceId := by
  have hst1 : (mkManager cfg gen1 st0).2.throws = false := by
    show (getOrCreateDeviceId gen1 st0).2.throws = false
    rw [getOrCreateDeviceId_throws]
    exact hth
  have hustorage :
      ((mkManager cfg gen1 st0).1.unsubscribe none uenv
          (mkManager cfg gen1 st0).2).storage
        = { (mkManager cfg gen1 st0).2 with val := none } := by
    simp [Manager.unsubscribe, hf, hok, hst1]
  refine ⟨?_, ?_, ?_, ?_, hne⟩
  · rw [hustorage]
  · simp only [Manager.subscribe, hplat, hkeys]
    cases senv.fetchResult with
    | error e => simp [RequestBody.sentDeviceId]
    | ok fresp =>
      by_cases hr : fresp.ok <;> simp [hr, RequestBody.sentDeviceId]
  · rw [hustorage]
    simp [getOrCreateDeviceId, hst1]
  · rw [hustorage]
    simp [getOrCreateDeviceId, hst1]

/-- C10 witness: concrete construction, unsubscribe, re-subscribe and fresh
retrieval. -/
theorem deviceIdCapturedAtConstructionWitness :
    ((mkManager none "uuid-1" ⟨false, none⟩).1.unsubscribe none sampleUnsubEnv
        (mkManager none "uuid-1" ⟨false, none⟩).2).storage.val = none ∧
    ((mkManager none "uuid-1" ⟨false, none⟩).1.subscribe keysPresentEnv).requests.map
        (fun r => r.body.sentDeviceId)
      = [some (mkManager none "uuid-1" ⟨false, none⟩).1.deviceId] ∧
    (getOrCreateDeviceId "uuid-2"
        ((mkManager none "uuid-1" ⟨false, none⟩).1.unsubscribe none sampleUnsubEnv
          (mkManager none "uuid-1" ⟨false, none⟩).2).storage).1 = "uuid-2" ∧
    (getOrCreateDeviceId "uuid-2"
        ((mkManager none "uuid-1" ⟨false, none⟩).1.unsubscribe none sampleUnsubEnv
          (mkManager none "uuid-1" ⟨false, none⟩).2).storage).2.val = some "uuid-2" ∧
    "uuid-2" ≠ (mkManager none "uuid-1" ⟨false, none⟩).1.deviceId :=
  deviceIdCapturedAtConstruction none "uuid-1" "uuid-2" ⟨false, none⟩
    sampleUnsubEnv keysPresentEnv
    { endpoint := some "https://push.example/ep"
      keys := some { p256dh := some "p256-material", auth := some "auth-material" }
      expirationTime := none }
    { p256dh := some "p256-material", auth := some "auth-material" }
    ⟨200, "OK"⟩ rfl rfl rfl rfl rfl (by decide)

end WebPushKit
